import Mathlib

/-
Verification development for the qahirah_xcffib module (src/qahirah_xcffib.py).
The definitions below are shallow embeddings of the corresponding Python
functions; line numbers in comments refer to src/qahirah_xcffib.py.
Opaque Python callables (event-filter actions, event-loop readers) are
modelled by integer keys; futures are modelled by indices into an explicit
list of future states; the transport (xcffib connection) is modelled by the
data it hands back (buffered events, the has_error flag, whether the probe
of the file descriptor reports the connection broken).
-/

/-- State of an asyncio future as used by the module: futures are created
pending and resolved exactly once, either with None (void requests), with a
reply payload, or rejected with an exception. -/
inductive FutureState where
  | pending
  | resolvedNone
  | resolvedReply
  | rejected
deriving DecidableEq, Repr

/-- Python exception classes raised by the modelled code paths. -/
inductive PyErr where
  | keyError
  | valueError
  | nameError
deriving DecidableEq, Repr

/-- Result of a Python call: normal return or raised exception. -/
inductive PyResult (α : Type) where
  | ok (val : α)
  | exn (err : PyErr)
deriving DecidableEq, Repr

/-- An xcffib request cookie: its sequence number, and whether it is a
VoidCookie (a request the server never replies to). -/
structure Cookie where
  sequence : Nat
  is_void : Bool
deriving DecidableEq, Repr

/-- State of a Connection object (lines 1019-1423): the event-filter list
(entries keyed by the pair action, args, both modelled as Nat), the FIFO
reply queue (future ids), the futures created so far, the cached file
descriptor _conn_fd, whether the event loop currently holds the
fd-readable subscription (loop.add_reader), and last_sequence. -/
structure ConnState where
  event_filters : List (Nat × Nat)
  reply_queue : List Nat
  futures : List FutureState
  conn_fd : Option Nat
  reader_installed : Bool
  last_sequence : Option Nat
deriving DecidableEq, Repr

/-- Connection.sequence_jump (line 1038): 1 <<< 30. -/
def sequence_jump : Nat := 2 ^ 30

/-- The incr_sequence computation of Connection.wait_for_reply
(lines 1254-1263): true when last_sequence is None, or the sequence of the
cookie is greater than last_sequence, or the sequence plus sequence_jump is
still below last_sequence (assumed wraparound). -/
def incr_sequence (last_sequence : Option Nat) (seq : Nat) : Bool :=
  match last_sequence with
  | none => true
  | some l => decide (seq > l) || decide (seq + sequence_jump < l)

/-- The nested reply_ready_action of wait_for_reply (lines 1240-1251):
fetches the reply synchronously, then rejects the future when
conn.has_error() reports an error, else resolves it with the reply. -/
def reply_ready_action (futures : List FutureState) (fid : Nat)
    (has_error : Bool) : List FutureState :=
  futures.set fid (if has_error then FutureState.rejected else FutureState.resolvedReply)

/-- Connection.wait_for_reply (lines 1228-1285). Creates a fresh future,
computes incr_sequence and updates last_sequence when it is true (this
happens before the VoidCookie test, lines 1254-1266), then: a VoidCookie
resolves immediately with None (line 1268); a non-void cookie with
incr_sequence false is fetched synchronously via reply_ready_action
(line 1271); otherwise the fd reader is installed when no waiter existed
(lines 1274-1281) and the future id is appended to the reply queue
(line 1282). Returns the new state and the future id. -/
def wait_for_reply (s : ConnState) (cookie : Cookie) (has_error : Bool) :
    ConnState × Nat :=
  let fid := s.futures.length
  let futures0 := s.futures ++ [FutureState.pending]
  let incr := incr_sequence s.last_sequence cookie.sequence
  let last2 := if incr then some cookie.sequence else s.last_sequence
  if cookie.is_void then
    ({ s with futures := futures0.set fid FutureState.resolvedNone,
              last_sequence := last2 }, fid)
  else if incr = false then
    ({ s with futures := reply_ready_action futures0 fid has_error,
              last_sequence := last2 }, fid)
  else
    let reader2 :=
      if s.event_filters.length + s.reply_queue.length = 0 then true
      else s.reader_installed
    ({ s with futures := futures0,
              last_sequence := last2,
              reader_installed := reader2,
              reply_queue := s.reply_queue ++ [fid] }, fid)

/-- The incr condition as the specification words it: last_sequence is
None, OR the sequence is greater than last_sequence, OR the sequence plus
sequence_jump is below last_sequence. Stated propositionally, to be
compared with the executable incr_sequence transcribed from the code. -/
def incr_spec (last_sequence : Option Nat) (seq : Nat) : Prop :=
  last_sequence = none ∨
    ∃ l, last_sequence = some l ∧ (seq > l ∨ seq + sequence_jump < l)

/-- Claim C1: on a non-void request cookie, wait_for_reply computes
incr = (last_sequence is None) OR (sequence > last_sequence) OR
(sequence + sequence_jump < last_sequence) with sequence_jump = 2 ^ 30,
and sets last_sequence to the sequence of the cookie exactly when incr is
true; for last_sequence = 2 ^ 32 - 100 and sequence 50, incr is true. -/
theorem wait_for_reply_sequence_tracking (s : ConnState) (c : Cookie)
    (he : Bool) (hnv : c.is_void = false) :
    (incr_sequence s.last_sequence c.sequence = true ↔
      incr_spec s.last_sequence c.sequence) ∧
    (wait_for_reply s c he).1.last_sequence =
      (if incr_sequence s.last_sequence c.sequence then some c.sequence
       else s.last_sequence) ∧
    sequence_jump = 2 ^ 30 ∧
    incr_sequence (some (2 ^ 32 - 100)) 50 = true := by
  refine ⟨?_, ?_, rfl, by decide⟩
  · cases h : s.last_sequence with
    | none => simp [incr_sequence, incr_spec, h]
    | some l => simp [incr_sequence, incr_spec, h]
  · simp only [wait_for_reply, hnv]
    split
    · rfl
    · split <;> rfl

/-- Witness for claim C1 at the wraparound instance of the specification:
last_sequence = 2 ^ 32 - 100, new non-void request with sequence 50. -/
theorem wait_for_reply_sequence_tracking_witness :
    (Cookie.mk 50 false).is_void = false ∧
    ((incr_sequence (some (2 ^ 32 - 100)) 50 = true ↔
        incr_spec (some (2 ^ 32 - 100)) 50) ∧
      (wait_for_reply
          (ConnState.mk [] [] [] (some 3) false (some (2 ^ 32 - 100)))
          (Cookie.mk 50 false) false).1.last_sequence =
        (if incr_sequence (some (2 ^ 32 - 100)) 50 then some 50
         else some (2 ^ 32 - 100)) ∧
      sequence_jump = 2 ^ 30 ∧
      incr_sequence (some (2 ^ 32 - 100)) 50 = true) :=
  ⟨rfl,
    wait_for_reply_sequence_tracking
      (ConnState.mk [] [] [] (some 3) false (some (2 ^ 32 - 100)))
      (Cookie.mk 50 false) false rfl⟩

/-- Setting the element just past a list, after appending one slot, puts
the new value in that slot. -/
theorem set_concat_length (l : List α) (x y : α) :
    (l ++ [x]).set l.length y = l ++ [y] := by
  induction l with
  | nil => rfl
  | cons a t ih => simp [List.set, ih]

/-- Reading the slot just past a list, after appending one element, yields
that element. -/
theorem getElem?_concat_len (l : List α) (x : α) :
    (l ++ [x])[l.length]? = some x := by
  induction l with
  | nil => rfl
  | cons a t ih => simp [ih]

/-- A concrete healthy connection with no waiters and last_sequence None,
used to exhibit the behaviour of wait_for_reply on a VoidCookie. -/
def voidDemoState : ConnState :=
  ConnState.mk [] [] [] (some 3) false none

/-- Counterexample to claim C7 as stated: wait_for_reply on a VoidCookie
does not leave last_sequence unchanged — with last_sequence None and a
void cookie of sequence 5, the call sets last_sequence to 5, because the
incr computation and the last_sequence update (lines 1254-1266) run before
the VoidCookie test (line 1267). -/
theorem wait_for_reply_void_updates_sequence :
    (wait_for_reply voidDemoState (Cookie.mk 5 true) false).1.last_sequence
        = some 5 ∧
    voidDemoState.last_sequence = none ∧
    some 5 ≠ (none : Option Nat) := by
  refine ⟨rfl, rfl, by decide⟩

/-- Claim C7 as amended: on a void-style cookie, wait_for_reply resolves
the returned future immediately with no value, appends nothing to the
reply queue, does not alter the fd subscription, the filter list or the
cached fd — but it does run the incr computation and updates last_sequence
to the sequence of the cookie whenever incr is true, exactly as for
non-void cookies. -/
theorem wait_for_reply_void_branch (s : ConnState) (c : Cookie) (he : Bool)
    (hv : c.is_void = true) :
    (wait_for_reply s c he).1.futures[(wait_for_reply s c he).2]? =
        some FutureState.resolvedNone ∧
    (wait_for_reply s c he).1.reply_queue = s.reply_queue ∧
    (wait_for_reply s c he).1.reader_installed = s.reader_installed ∧
    (wait_for_reply s c he).1.event_filters = s.event_filters ∧
    (wait_for_reply s c he).1.conn_fd = s.conn_fd ∧
    (wait_for_reply s c he).1.last_sequence =
      (if incr_sequence s.last_sequence c.sequence then some c.sequence
       else s.last_sequence) := by
  simp [wait_for_reply, hv, set_concat_length, getElem?_concat_len]

/-- The call of wait_for_reply exercised by the witness for claim C7. -/
def voidDemoCall : ConnState × Nat :=
  wait_for_reply voidDemoState (Cookie.mk 5 true) false

/-- Witness for the amended claim C7 at a concrete void cookie. -/
theorem wait_for_reply_void_branch_witness :
    (Cookie.mk 5 true).is_void = true ∧
    (voidDemoCall.1.futures[voidDemoCall.2]? = some FutureState.resolvedNone ∧
      voidDemoCall.1.reply_queue = voidDemoState.reply_queue ∧
      voidDemoCall.1.reader_installed = voidDemoState.reader_installed ∧
      voidDemoCall.1.event_filters = voidDemoState.event_filters ∧
      voidDemoCall.1.conn_fd = voidDemoState.conn_fd ∧
      voidDemoCall.1.last_sequence =
        (if incr_sequence voidDemoState.last_sequence (Cookie.mk 5 true).sequence
         then some (Cookie.mk 5 true).sequence
         else voidDemoState.last_sequence)) :=
  ⟨rfl, wait_for_reply_void_branch voidDemoState (Cookie.mk 5 true) false rfl⟩

/-- Connection.add_event_filter (lines 1182-1205): raises KeyError on a
duplicate action+args key; otherwise, when no waiter of either kind
exists, installs the fd reader (lines 1196-1203), then appends the new
entry. On error the state is returned unchanged, as the exception is
raised before any mutation. -/
def add_event_filter (s : ConnState) (action args : Nat) :
    ConnState × Option PyErr :=
  if s.event_filters.contains (action, args) then
    (s, some PyErr.keyError)
  else
    let reader2 :=
      if s.event_filters.length + s.reply_queue.length = 0 then true
      else s.reader_installed
    ({ s with reader_installed := reader2,
              event_filters := s.event_filters ++ [(action, args)] },
     none)

/-- Connection.remove_event_filter (lines 1207-1226): finds the entry with
the given action+args key (the code asserts there is at most one), pops
it, and removes the fd reader when the connection still has a cached fd
and no waiter of either kind remains; when the key is absent, raises
KeyError unless optional is true. -/
def remove_event_filter (s : ConnState) (action args : Nat)
    (optional : Bool) : ConnState × Option PyErr :=
  match s.event_filters.findIdx? (fun f => f == (action, args)) with
  | some i =>
      let filters2 := s.event_filters.eraseIdx i
      let reader2 :=
        if s.conn_fd ≠ none ∧ filters2.length + s.reply_queue.length = 0
        then false
        else s.reader_installed
      ({ s with event_filters := filters2, reader_installed := reader2 },
       none)
  | none =>
      if optional then (s, none) else (s, some PyErr.keyError)

/-- The subscription invariant of the specification: the OS-level
readable-fd subscription is installed exactly when there is at least one
waiter, event filter or queued reply. -/
def sub_inv (s : ConnState) : Prop :=
  s.reader_installed =
    decide (0 < s.event_filters.length + s.reply_queue.length)

/-- A list in which findIdx? found an index is not empty. -/
theorem ne_nil_of_findIdx?_eq_some {l : List α} {p : α → Bool} {i : Nat}
    (h : l.findIdx? p = some i) : l ≠ [] := by
  intro hnil
  subst hnil
  simp [List.findIdx?] at h

/-- Erasing an index never lengthens a list. -/
theorem length_eraseIdx_le (l : List α) (i : Nat) :
    (l.eraseIdx i).length ≤ l.length := by
  induction l generalizing i with
  | nil => simp [List.eraseIdx]
  | cons a t ih =>
      cases i with
      | zero => simp [List.eraseIdx]
      | succ j =>
          simpa [List.eraseIdx] using Nat.succ_le_succ (ih j)

/-- Claim C3: starting from a healthy connection satisfying the
subscription invariant, each of add_event_filter, remove_event_filter and
wait_for_reply re-establishes the invariant: the fd reader is installed
after the operation exactly when at least one event filter or queued reply
waiter remains. -/
theorem subscription_invariant_preserved (s : ConnState)
    (hfd : s.conn_fd ≠ none) (hinv : sub_inv s) :
    (∀ action args, sub_inv (add_event_filter s action args).1) ∧
    (∀ action args optional,
      sub_inv (remove_event_filter s action args optional).1) ∧
    (∀ cookie has_error, sub_inv (wait_for_reply s cookie has_error).1) := by
  have hinv0 : s.reader_installed =
      decide (0 < s.event_filters.length + s.reply_queue.length) := hinv
  refine ⟨?_, ?_, ?_⟩
  · intro action args
    unfold add_event_filter
    split
    · exact hinv
    · unfold sub_inv
      dsimp only
      simp only [List.length_append, List.length_cons, List.length_nil,
        Nat.zero_add]
      rw [decide_eq_true
        (show 0 < s.event_filters.length + 1 + s.reply_queue.length by omega)]
      rcases Nat.eq_zero_or_pos
          (s.event_filters.length + s.reply_queue.length) with h0 | hpos
      · rw [if_pos h0]
      · rw [if_neg (Nat.pos_iff_ne_zero.mp hpos), hinv0,
          decide_eq_true hpos]
  · intro action args optional
    unfold remove_event_filter
    split
    · rename_i i hf
      unfold sub_inv
      dsimp only
      rcases Nat.eq_zero_or_pos
          ((s.event_filters.eraseIdx i).length + s.reply_queue.length)
        with h0 | hpos
      · rw [if_pos ⟨hfd, h0⟩, h0]
        rfl
      · rw [if_neg (fun hc => (Nat.pos_iff_ne_zero.mp hpos) hc.2), hinv0,
          decide_eq_true hpos, decide_eq_true]
        have hlen : 0 < s.event_filters.length :=
          List.length_pos.mpr (ne_nil_of_findIdx?_eq_some hf)
        omega
    · rename_i hf
      split
      · exact hinv
      · exact hinv
  · intro cookie has_error
    unfold wait_for_reply
    dsimp only
    split
    · exact hinv
    · split
      · exact hinv
      · unfold sub_inv
        dsimp only
        simp only [List.length_append, List.length_cons, List.length_nil,
          Nat.zero_add]
        rw [decide_eq_true
          (show 0 < s.event_filters.length + (s.reply_queue.length + 1)
            by omega)]
        rcases Nat.eq_zero_or_pos
            (s.event_filters.length + s.reply_queue.length) with h0 | hpos
        · rw [if_pos h0]
        · rw [if_neg (Nat.pos_iff_ne_zero.mp hpos), hinv0,
            decide_eq_true hpos]

/-- Witness for claim C3 on a concrete healthy connection holding one
event filter, checking all three operations. -/
theorem subscription_invariant_preserved_witness :
    (ConnState.mk [(1, 0)] [] [] (some 3) true none).conn_fd ≠ none ∧
    sub_inv (ConnState.mk [(1, 0)] [] [] (some 3) true none) ∧
    ((∀ action args,
        sub_inv (add_event_filter
          (ConnState.mk [(1, 0)] [] [] (some 3) true none) action args).1) ∧
      (∀ action args optional,
        sub_inv (remove_event_filter
          (ConnState.mk [(1, 0)] [] [] (some 3) true none) action args
          optional).1) ∧
      (∀ cookie has_error,
        sub_inv (wait_for_reply
          (ConnState.mk [(1, 0)] [] [] (some 3) true none) cookie
          has_error).1)) :=
  ⟨by decide, rfl,
    subscription_invariant_preserved
      (ConnState.mk [(1, 0)] [] [] (some 3) true none)
      (by decide) rfl⟩

/-- One observable step performed by the fd-readable callback: servicing a
queued reply waiter, polling a buffered event from the transport,
dispatching an event to one filter, or delivering the connection error to
one filter. -/
inductive TraceItem where
  | serviceReply (fid : Nat)
  | pollEvent (e : Nat)
  | dispatchEvent (e : Nat) (action args : Nat)
  | deliverError (action args : Nat)
deriving DecidableEq, Repr

/-- The event loop of _handle_conn_readable (lines 1136-1156): while
filters exist, poll each buffered event and dispatch it to a snapshot copy
of the filter list, in order. The filter actions of the module do not
mutate the filter list, so the snapshot equals the live list here. -/
def dispatch_events (filters : List (Nat × Nat)) : List Nat → List TraceItem
  | [] => []
  | e :: rest =>
      (TraceItem.pollEvent e ::
        filters.map (fun f => TraceItem.dispatchEvent e f.1 f.2))
        ++ dispatch_events filters rest

/-- Connection._handle_conn_readable (lines 1122-1180). Inputs: the
current state, the events buffered in the transport (polled until none
remains), the has_error flag seen by reply_ready_action, and whether the
re-probe of the file descriptor (lines 1162-1168) reports the connection
broken. Steps: (1) when the reply queue is not empty, pop exactly one
waiter from the front and run its reply_ready_action (lines 1131-1134);
(2) when filters exist, poll and dispatch all buffered events
(lines 1136-1156); (3) unconditionally remove the fd reader (line 1160),
re-probe, clearing the cached fd on a broken connection (lines 1161-1168);
(4) when the cached fd survives, reinstall the reader if any waiter
remains (lines 1169-1172), else deliver the connection error to every
registered filter (lines 1173-1178). Returns the new state and the trace
of observable steps. -/
def handle_conn_readable (s : ConnState) (events : List Nat)
    (has_error broken : Bool) : ConnState × List TraceItem :=
  let step1 :=
    match s.reply_queue with
    | [] => (s, ([] : List TraceItem))
    | fid :: rest =>
        ({ s with reply_queue := rest,
                  futures := reply_ready_action s.futures fid has_error },
         [TraceItem.serviceReply fid])
  let s1 := step1.1
  let tr2 :=
    if s1.event_filters.isEmpty then []
    else dispatch_events s1.event_filters events
  let s2 := { s1 with reader_installed := false }
  let s3 := bif broken then { s2 with conn_fd := none } else s2
  match s3.conn_fd with
  | some _ =>
      let s4 :=
        if s3.event_filters.length + s3.reply_queue.length ≠ 0 then
          { s3 with reader_installed := true }
        else s3
      (s4, step1.2 ++ tr2)
  | none =>
      (s3, step1.2 ++ tr2 ++
        s3.event_filters.map (fun f => TraceItem.deliverError f.1 f.2))

/-- Recognizer for reply-servicing trace items. -/
def isServiceReply : TraceItem → Bool
  | TraceItem.serviceReply _ => true
  | _ => false

/-- The event-dispatch phase never services a reply waiter. -/
theorem dispatch_events_no_service (filters : List (Nat × Nat))
    (events : List Nat) :
    ∀ x ∈ dispatch_events filters events, isServiceReply x = false := by
  induction events with
  | nil => intro x hx; simp [dispatch_events] at hx
  | cons e rest ih =>
      intro x hx
      simp only [dispatch_events, List.mem_append, List.mem_cons,
        List.mem_map] at hx
      rcases hx with (h | ⟨f, _, h⟩) | h
      · subst h; rfl
      · subst h; rfl
      · exact ih x h

/-- Claim C4: on each fd-readiness callback with a non-empty reply queue,
exactly one reply-ready action is popped from the front of the queue and
invoked, and it is invoked before any event is polled or dispatched: the
trace starts with servicing the front waiter and contains no other
reply-servicing step, and the resulting queue is the tail of the old
queue. -/
theorem handle_readable_services_one_reply (s : ConnState)
    (events : List Nat) (has_error broken : Bool) (fid : Nat)
    (rest : List Nat) (h : s.reply_queue = fid :: rest) :
    (∃ tl, (handle_conn_readable s events has_error broken).2 =
        TraceItem.serviceReply fid :: tl ∧
      ∀ x ∈ tl, isServiceReply x = false) ∧
    (handle_conn_readable s events has_error broken).1.reply_queue = rest := by
  unfold handle_conn_readable
  rw [h]
  cases broken with
  | true =>
      dsimp only
      rw [Bool.cond_true]
      dsimp only
      refine ⟨⟨_, rfl, ?_⟩, rfl⟩
      intro x hx
      rcases List.mem_append.mp hx with h2 | h3
      · split at h2
        · simp at h2
        · exact dispatch_events_no_service _ _ x h2
      · simp only [List.mem_map] at h3
        obtain ⟨f, _, rfl⟩ := h3
        rfl
  | false =>
      dsimp only
      rw [Bool.cond_false]
      split
      · refine ⟨⟨_, rfl, ?_⟩, ?_⟩
        · intro x hx
          split at hx
          · simp at hx
          · exact dispatch_events_no_service _ _ x hx
        · split <;> rfl
      · refine ⟨⟨_, rfl, ?_⟩, rfl⟩
        intro x hx
        rcases List.mem_append.mp hx with h2 | h3
        · split at h2
          · simp at h2
          · exact dispatch_events_no_service _ _ x h2
        · simp only [List.mem_map] at h3
          obtain ⟨f, _, rfl⟩ := h3
          rfl

/-- Witness for claim C4: a callback on a connection with two queued reply
waiters and one event filter, one buffered event, healthy re-probe. -/
theorem handle_readable_services_one_reply_witness :
    (ConnState.mk [(1, 0)] [0, 1] [FutureState.pending, FutureState.pending]
        (some 3) true none).reply_queue = 0 :: [1] ∧
    ((∃ tl, (handle_conn_readable
          (ConnState.mk [(1, 0)] [0, 1]
            [FutureState.pending, FutureState.pending] (some 3) true none)
          [7] false false).2 = TraceItem.serviceReply 0 :: tl ∧
        ∀ x ∈ tl, isServiceReply x = false) ∧
      (handle_conn_readable
          (ConnState.mk [(1, 0)] [0, 1]
            [FutureState.pending, FutureState.pending] (some 3) true none)
          [7] false false).1.reply_queue = [1]) :=
  ⟨rfl,
    handle_readable_services_one_reply
      (ConnState.mk [(1, 0)] [0, 1]
        [FutureState.pending, FutureState.pending] (some 3) true none)
      [7] false false 0 [1] rfl⟩

/-- Recognizer for error-delivery trace items. -/
def isDeliverError : TraceItem → Bool
  | TraceItem.deliverError _ _ => true
  | _ => false

/-- The event-dispatch phase never delivers a connection error. -/
theorem dispatch_events_no_deliver (filters : List (Nat × Nat))
    (events : List Nat) :
    ∀ x ∈ dispatch_events filters events, isDeliverError x = false := by
  induction events with
  | nil => intro x hx; simp [dispatch_events] at hx
  | cons e rest ih =>
      intro x hx
      simp only [dispatch_events, List.mem_append, List.mem_cons,
        List.mem_map] at hx
      rcases hx with (h | ⟨f, _, h⟩) | h
      · subst h; rfl
      · subst h; rfl
      · exact ih x h

/-- A concrete connection with two pending reply waiters and no event
filter, about to learn that the transport broke. -/
def brokenDemoState : ConnState :=
  ConnState.mk [] [0, 1] [FutureState.pending, FutureState.pending]
    (some 3) true none

/-- Counterexample to claim C2 as stated: when the re-probe finds the
connection broken, pending reply futures are not rejected. Here future 1
is still queued when the fatal error is detected, yet after the callback
it is still pending, not rejected — and the subscription is dropped, so it
can never be serviced later. -/
theorem broken_connection_leaves_reply_future_pending :
    1 ∈ (handle_conn_readable brokenDemoState [] true true).1.reply_queue ∧
    (handle_conn_readable brokenDemoState [] true true).1.futures[1]? =
      some FutureState.pending ∧
    FutureState.pending ≠ FutureState.rejected ∧
    (handle_conn_readable brokenDemoState [] true true).1.reader_installed =
      false := by
  decide

/-- Filtering a trace made of two error-free phases followed by pure
error deliveries keeps exactly the deliveries. -/
theorem filter_deliver_trace (tr1 tr2 maps : List TraceItem)
    (h1 : ∀ x ∈ tr1, isDeliverError x = false)
    (h2 : ∀ x ∈ tr2, isDeliverError x = false)
    (h3 : ∀ x ∈ maps, isDeliverError x = true) :
    (tr1 ++ tr2 ++ maps).filter (fun x => isDeliverError x) = maps := by
  rw [List.filter_append, List.filter_append]
  rw [List.filter_eq_nil_iff.mpr (fun a ha => by simp [h1 a ha])]
  rw [List.filter_eq_nil_iff.mpr (fun a ha => by simp [h2 a ha])]
  rw [List.filter_eq_self.mpr h3]
  simp

/-- Claim C2 as amended: when the re-probe after dispatch finds the
connection fatally broken, the error object is delivered to every
currently-registered event filter, the cached fd is cleared to None, and
the fd subscription is dropped and not reinstalled; but the reply queue is
left untouched by the error path — at most the one waiter popped in step
one of the callback resolves, and every other queued reply future keeps
its previous (pending) state rather than being rejected. -/
theorem handle_readable_broken_connection (s : ConnState)
    (events : List Nat) (has_error : Bool) :
    (handle_conn_readable s events has_error true).1.conn_fd = none ∧
    (handle_conn_readable s events has_error true).1.reader_installed =
      false ∧
    (handle_conn_readable s events has_error true).1.event_filters =
      s.event_filters ∧
    (handle_conn_readable s events has_error true).1.reply_queue =
      s.reply_queue.tail ∧
    (handle_conn_readable s events has_error true).1.futures =
      (match s.reply_queue with
       | [] => s.futures
       | fid :: _ => reply_ready_action s.futures fid has_error) ∧
    (handle_conn_readable s events has_error true).2.filter
        (fun x => isDeliverError x) =
      s.event_filters.map (fun f => TraceItem.deliverError f.1 f.2) := by
  cases hq : s.reply_queue with
  | nil =>
      unfold handle_conn_readable
      rw [hq]
      dsimp only
      rw [Bool.cond_true]
      dsimp only
      refine ⟨rfl, rfl, rfl, hq, rfl, ?_⟩
      refine filter_deliver_trace _ _ _ ?_ ?_ ?_
      · intro x hx; simp at hx
      · intro x hx
        split at hx
        · simp at hx
        · exact dispatch_events_no_deliver _ _ x hx
      · intro x hx
        simp only [List.mem_map] at hx
        obtain ⟨f, _, rfl⟩ := hx
        rfl
  | cons fid rest =>
      unfold handle_conn_readable
      rw [hq]
      dsimp only
      rw [Bool.cond_true]
      dsimp only
      refine ⟨rfl, rfl, rfl, rfl, rfl, ?_⟩
      refine filter_deliver_trace _ _ _ ?_ ?_ ?_
      · intro x hx
        simp only [List.mem_singleton] at hx
        subst hx
        rfl
      · intro x hx
        split at hx
        · simp at hx
        · exact dispatch_events_no_deliver _ _ x hx
      · intro x hx
        simp only [List.mem_map] at hx
        obtain ⟨f, _, rfl⟩ := hx
        rfl

/-- State of an AtomCache object (lines 1425-1645): the forward and
reverse maps, the pending-lookup map for names (name to the future the
in-flight lookup will resolve), the FIFO queue of queued do_lookup
coroutines (each recorded as the name it will intern together with its
lookup_done future), whether the background _process_queue task is
running, and the id for the next future created by loop.create_future. -/
structure AtomCacheS where
  name_to_atom : List (String × Nat)
  atom_to_name : List (Nat × String)
  name_lookup_pending : List (String × Nat)
  lookup_queue : List (String × Nat)
  lookup_process : Bool
  next_future : Nat
deriving DecidableEq, Repr

/-- Which path a call of intern_atom_async takes up to its first await. -/
inductive InternPath where
  | cached (atom : Nat)
  | awaitPending (fut : Nat)
  | newLookup (fut : Nat)
deriving DecidableEq, Repr

/-- AtomCache.intern_atom_async up to its first suspension point
(lines 1523-1566): a cache hit returns the mapped atom (line 1531); a name
whose lookup is already in flight awaits the shared future recorded in the
pending map (lines 1533-1534), issuing no wire request and mutating
nothing; otherwise a fresh lookup_done future is created, the do_lookup
coroutine — the only place a wire InternAtom request is issued, one per
queue entry — is appended to the lookup queue, the shared future is
recorded in the pending map, and the background drain task is started if
not yet running (lines 1536-1566). -/
def intern_atom_async_start (s : AtomCacheS) (name : String) :
    AtomCacheS × InternPath :=
  match s.name_to_atom.lookup name with
  | some a => (s, InternPath.cached a)
  | none =>
      match s.name_lookup_pending.lookup name with
      | some fut => (s, InternPath.awaitPending fut)
      | none =>
          let fut := s.next_future
          ({ s with next_future := fut + 1,
                    lookup_queue := s.lookup_queue ++ [(name, fut)],
                    name_lookup_pending :=
                      s.name_lookup_pending ++ [(name, fut)],
                    lookup_process := true },
           InternPath.newLookup fut)

/-- The value a caller of intern_atom_async obtains once its awaited
future resolves, given the resolution valuation of futures: a cached hit
needs no future; both the shared-await path and the new-lookup path read
the lookup_done future they hold. -/
def intern_result (resolved : Nat → Option Nat) : InternPath → Option Nat
  | InternPath.cached a => some a
  | InternPath.awaitPending f => resolved f
  | InternPath.newLookup f => resolved f

/-- A lookup over an appended association list searches the left part
first. -/
theorem lookup_append_of_left_none [BEq α] (l1 l2 : List (α × β)) (a : α)
    (h : l1.lookup a = none) : (l1 ++ l2).lookup a = l2.lookup a := by
  induction l1 with
  | nil => simp
  | cons p t ih =>
      rw [List.cons_append, List.lookup]
      rw [List.lookup] at h
      cases hb : (a == p.1) with
      | true => rw [hb] at h; simp at h
      | false =>
          rw [hb] at h
          simpa [hb] using ih h

/-- Claim C5: when a name is not cached but its lookup is already in
flight, intern_atom_async awaits the shared pending future and issues no
second wire request; concretely, two consecutive calls for the same
not-yet-resolved name take the new-lookup path and then the shared-await
path on the same future, enqueue exactly one do_lookup entry (hence
exactly one wire InternAtom request) between them, leave the state
untouched on the second call, and — because both paths read the same
single-resolution future — resolve to the same atom id under every
resolution of the futures. -/
theorem intern_atom_async_dedup (s : AtomCacheS) (name : String)
    (h1 : s.name_to_atom.lookup name = none)
    (h2 : s.name_lookup_pending.lookup name = none) :
    (intern_atom_async_start s name).2 =
      InternPath.newLookup s.next_future ∧
    (intern_atom_async_start s name).1.lookup_queue =
      s.lookup_queue ++ [(name, s.next_future)] ∧
    (intern_atom_async_start
        (intern_atom_async_start s name).1 name).2 =
      InternPath.awaitPending s.next_future ∧
    (intern_atom_async_start
        (intern_atom_async_start s name).1 name).1 =
      (intern_atom_async_start s name).1 ∧
    (∀ resolved : Nat → Option Nat,
      intern_result resolved (intern_atom_async_start s name).2 =
        intern_result resolved
          (intern_atom_async_start
            (intern_atom_async_start s name).1 name).2) := by
  have hstep : intern_atom_async_start s name =
      ({ s with next_future := s.next_future + 1,
                lookup_queue := s.lookup_queue ++ [(name, s.next_future)],
                name_lookup_pending :=
                  s.name_lookup_pending ++ [(name, s.next_future)],
                lookup_process := true },
       InternPath.newLookup s.next_future) := by
    unfold intern_atom_async_start
    rw [h1, h2]
  have hpend : (s.name_lookup_pending ++
      [(name, s.next_future)]).lookup name = some s.next_future := by
    rw [lookup_append_of_left_none _ _ _ h2]
    simp [List.lookup]
  have hstep2 : intern_atom_async_start
      (intern_atom_async_start s name).1 name =
      ((intern_atom_async_start s name).1,
        InternPath.awaitPending s.next_future) := by
    rw [hstep]
    unfold intern_atom_async_start
    rw [h1, hpend]
  refine ⟨by rw [hstep], by rw [hstep], by rw [hstep2], by rw [hstep2],
    fun resolved => ?_⟩
  rw [hstep2, hstep]
  rfl

/-- Witness for claim C5 on an empty cache and the name FOO. -/
theorem intern_atom_async_dedup_witness :
    (AtomCacheS.mk [] [] [] [] false 0).name_to_atom.lookup "FOO" = none ∧
    (AtomCacheS.mk [] [] [] [] false 0).name_lookup_pending.lookup "FOO" =
      none ∧
    ((intern_atom_async_start (AtomCacheS.mk [] [] [] [] false 0)
        "FOO").2 = InternPath.newLookup 0 ∧
      (intern_atom_async_start (AtomCacheS.mk [] [] [] [] false 0)
          "FOO").1.lookup_queue = [] ++ [("FOO", 0)] ∧
      (intern_atom_async_start
          (intern_atom_async_start (AtomCacheS.mk [] [] [] [] false 0)
            "FOO").1 "FOO").2 = InternPath.awaitPending 0 ∧
      (intern_atom_async_start
          (intern_atom_async_start (AtomCacheS.mk [] [] [] [] false 0)
            "FOO").1 "FOO").1 =
        (intern_atom_async_start (AtomCacheS.mk [] [] [] [] false 0)
          "FOO").1 ∧
      (∀ resolved : Nat → Option Nat,
        intern_result resolved
            (intern_atom_async_start (AtomCacheS.mk [] [] [] [] false 0)
              "FOO").2 =
          intern_result resolved
            (intern_atom_async_start
              (intern_atom_async_start
                (AtomCacheS.mk [] [] [] [] false 0) "FOO").1 "FOO").2)) :=
  ⟨rfl, rfl,
    intern_atom_async_dedup (AtomCacheS.mk [] [] [] [] false 0) "FOO"
      rfl rfl⟩

/-- XK.VoidSymbol (line 400). -/
def XK_VoidSymbol : Nat := 0xffffff

/-- KEYSYM_KEYPAD (lines 694-699): the set of all XK.KP_ keysym values
defined at lines 443-477. -/
def KEYSYM_KEYPAD : List Nat :=
  [0xff80, 0xff89, 0xff8d, 0xff91, 0xff92, 0xff93, 0xff94, 0xff95, 0xff96,
   0xff97, 0xff98, 0xff99, 0xff9a, 0xff9b, 0xff9c, 0xff9d, 0xff9e, 0xff9f,
   0xffbd, 0xffaa, 0xffab, 0xffac, 0xffad, 0xffae, 0xffaf,
   0xffb0, 0xffb1, 0xffb2, 0xffb3, 0xffb4, 0xffb5, 0xffb6, 0xffb7, 0xffb8,
   0xffb9]

/-- STATE.mask (lines 717-720): a modifier with bit number v has mask
1 <<< v. SHIFT is bit 0, LOCK bit 1, MOD2 bit 4, MOD5 bit 7. -/
def state_mask (bit : Nat) : Nat := 2 ^ bit

/-- The padding step of KeyMapping.__init__ (line 1673): right-pad the
segment with zeros up to 4 slots. -/
def pad4 (seg : List Nat) : List Nat :=
  seg ++ List.replicate (4 - seg.length) 0

/-- The propagation loop of KeyMapping.__init__ (lines 1674-1679) on a
4-slot segment, performed left to right and in place: a zero slot receives
the value already standing in the previous slot (which may itself have
just been propagated). Vectors of other lengths do not occur; they are
returned unchanged. -/
def propagate4 : List Nat → List Nat
  | [s0, s1, s2, s3] =>
      let t1 := if s1 = 0 then s0 else s1
      let t2 := if s2 = 0 then t1 else s2
      let t3 := if s3 = 0 then t2 else s3
      [s0, t1, t2, t3]
  | l => l

/-- The per-keycode segment computed by KeyMapping.__init__
(lines 1667-1679): slice the raw keysym table row i, keep at most the first 4
slots, pad with zeros, propagate. -/
def keymapping_entry (keysyms : List Nat) (kpc i : Nat) : List Nat :=
  propagate4 (pad4 (((keysyms.drop (i * kpc)).take kpc).take 4))

/-- KeyMapping.__init__ (lines 1662-1689): for each of the
len(keysyms) / keysyms_per_keycode keycodes build its processed segment
and keep it under key i + start_keycode only when its first slot is
nonzero. -/
def keymapping_init (keysyms : List Nat) (kpc start_keycode : Nat) :
    List (Nat × List Nat) :=
  (List.range (keysyms.length / kpc)).filterMap (fun i =>
    let seg := keymapping_entry keysyms kpc i
    if seg.headD 0 ≠ 0 then some (i + start_keycode, seg) else none)

/-- Counterexample to claim C8 as stated: the raw entry with slots
97, 65, 0, 0 (letter a, letter A, empty group 2) is propagated by the
left-to-right previous-slot rule to 97, 65, 65, 65 — slot 2 receives the
value 65 standing in slot 1, not the 97, 65, 97, 65 the claim asserts. -/
theorem keymapping_propagation_counterexample :
    keymapping_init [97, 65, 0, 0] 4 8 = [(8, [97, 65, 65, 65])] ∧
    ([(8, [97, 65, 65, 65])] : List (Nat × List Nat)) ≠
      [(8, [97, 65, 97, 65])] := by
  decide

/-- Claim C8 as amended: KeyMapping construction takes at most the first
4 keysym slots of each keycode, right-pads missing slots with zero,
propagates left to right across slots 1 to 3 (a zero slot receives the
value already in the previous slot), and discards any keycode whose
resulting first slot is still zero; in particular the raw entry
97, 65, 0, 0 is propagated to 97, 65, 65, 65. -/
theorem keymapping_init_characterization (keysyms : List Nat)
    (kpc start_keycode : Nat) :
    (∀ k e, (k, e) ∈ keymapping_init keysyms kpc start_keycode ↔
      ∃ i, i < keysyms.length / kpc ∧ k = i + start_keycode ∧
        e = keymapping_entry keysyms kpc i ∧ e.headD 0 ≠ 0) ∧
    (∀ s0 s1 s2 s3 : Nat, propagate4 [s0, s1, s2, s3] =
      [s0, if s1 = 0 then s0 else s1,
        if s2 = 0 then (if s1 = 0 then s0 else s1) else s2,
        if s3 = 0 then
          (if s2 = 0 then (if s1 = 0 then s0 else s1) else s2)
        else s3]) ∧
    (∀ seg : List Nat, pad4 seg = seg ++ List.replicate (4 - seg.length) 0) ∧
    keymapping_init [97, 65, 0, 0] 4 8 = [(8, [97, 65, 65, 65])] := by
  refine ⟨?_, fun s0 s1 s2 s3 => rfl, fun seg => rfl, by decide⟩
  intro k e
  simp only [keymapping_init, List.mem_filterMap, List.mem_range]
  constructor
  · rintro ⟨i, hi, hsome⟩
    split at hsome
    · rename_i hne
      simp only [Option.some.injEq, Prod.mk.injEq] at hsome
      obtain ⟨hk, he⟩ := hsome
      subst hk
      subst he
      exact ⟨i, hi, rfl, rfl, hne⟩
    · simp at hsome
  · rintro ⟨i, hi, rfl, rfl, hne⟩
    refine ⟨i, hi, ?_⟩
    rw [if_pos hne]

/-- Interpretation state of a KeyMapping (lines 1652-1688): the processed
keycode table, and the modifier knobs. mode_switch_mod and numlock_mod
hold the bit number of the configured STATE modifier, or None; the
defaults set in __init__ are None and STATE.MOD2 (bit 4). -/
structure KeyMappingS where
  code_syms : List (Nat × List Nat)
  mode_switch_mod : Option Nat
  numlock_mod : Option Nat
  lock_is_shift_lock : Bool
deriving DecidableEq, Repr

/-- KeyMapping.map_simple (lines 1719-1765) on the keycode (detail) and
modifier-state mask of a key-press event. The group-selection condition at
line 1734 reads “self.mode_switch_mod != None and
evt.state & mode_switch_mod.mask != 0”: the second conjunct names the
bare identifier mode_switch_mod, which is bound nowhere in the module, so
whenever self.mode_switch_mod is not None (and the keycode has a table
entry, so the line is reached) Python raises NameError before any group is
selected; that is modelled by the exn result. When mode_switch_mod is
None the conjunction short-circuits and group 1 (slots 0 and 1) is used.
Table entries built by keymapping_init always have 4 slots; getD reads
slots 0 and 1 of the group-1 slice entry[0:2]. -/
def map_simple (m : KeyMappingS) (detail state : Nat) : PyResult Nat :=
  match m.code_syms.lookup detail with
  | none => PyResult.ok XK_VoidSymbol
  | some entry =>
      match m.mode_switch_mod with
      | some _ => PyResult.exn PyErr.nameError
      | none =>
          let grp := entry.take 2
          let e0 := grp.getD 0 0
          let e1 := grp.getD 1 0
          let shift := decide (state &&& state_mask 0 ≠ 0)
          let lock := decide (state &&& state_mask 1 ≠ 0)
          let numlock :=
            match m.numlock_mod with
            | some b => decide (state &&& state_mask b ≠ 0)
            | none => false
          let keysym :=
            if numlock && decide (e1 ∈ KEYSYM_KEYPAD) then
              (if shift || (lock && m.lock_is_shift_lock) then e0 else e1)
            else if !(shift || lock) then e0
            else if lock && !m.lock_is_shift_lock then
              (let k := if shift then e1 else e0
               if 97 ≤ k ∧ k ≤ 122 then k - 32 else k)
            else if shift || (lock && m.lock_is_shift_lock) then e1
            else XK_VoidSymbol
          PyResult.ok keysym

/-- Claim C6 records the intended behaviour; the code cannot deliver it:
whenever mode_switch_mod is configured (non-None) and the keycode of the
event has a table entry, map_simple raises NameError — line 1734 reads
the unbound bare name mode_switch_mod instead of self.mode_switch_mod —
so group 2 is never selected, whatever the modifier state. -/
theorem map_simple_mode_switch_name_error (m : KeyMappingS)
    (detail state b : Nat) (hm : m.mode_switch_mod = some b)
    (hd : m.code_syms.lookup detail ≠ none) :
    map_simple m detail state = PyResult.exn PyErr.nameError := by
  unfold map_simple
  cases hl : m.code_syms.lookup detail with
  | none => exact absurd hl hd
  | some entry => rw [hm]

/-- A mapping with mode switch configured on MOD5 (bit 7) and keycode 10
bound to the groups a, A and b, B. -/
def modeSwitchDemo : KeyMappingS :=
  KeyMappingS.mk [(10, [97, 65, 98, 66])] (some 7) (some 4) false

/-- Witness for the C6 theorem: the concrete failing input — keycode 10,
event state with the MOD5 bit set, where the claim expects group 2 and
keysym 98 but the code raises NameError. -/
theorem map_simple_mode_switch_name_error_witness :
    modeSwitchDemo.mode_switch_mod = some 7 ∧
    modeSwitchDemo.code_syms.lookup 10 ≠ none ∧
    map_simple modeSwitchDemo 10 (state_mask 7) =
      PyResult.exn PyErr.nameError ∧
    map_simple modeSwitchDemo 10 (state_mask 7) ≠ PyResult.ok 98 :=
  ⟨rfl, by decide,
    map_simple_mode_switch_name_error modeSwitchDemo 10 (state_mask 7) 7
      rfl (by decide),
    by decide⟩

/-- A window-scoped event-filter entry (the triples kept by
Window.add_event_filter, lines 2123-2172): the action and args key parts
and the optional event-code set; None is the wildcard matching every
event. Python sets of event codes are modelled as lists with set
semantics (union via List.union, difference via filter). -/
structure WinFilter where
  action : Nat
  args : Nat
  selevents : Option (List Nat)
deriving DecidableEq, Repr

/-- Window.add_event_filter (lines 2123-2172), after the promotion of an
int selevents to a one-element set and the type check (lines 2131-2140):
find the first entry with the same action+args key; when one exists, a
wildcard mismatch between its set and the new one raises ValueError
before any mutation (lines 2152-2154), else a non-None new set is
unioned into the entry (lines 2155-2162); when none exists the new entry
is appended (lines 2163-2167). The Bool of the result tells whether the
connection-level _conn_event_filter was installed at line 2169-2171,
which happens only when the list was empty on entry and no exception was
raised. -/
def win_add_event_filter (filters : List WinFilter) (action args : Nat)
    (selevents : Option (List Nat)) :
    List WinFilter × Bool × Option PyErr :=
  let add_conn_filter := filters.isEmpty
  match filters.findIdx? (fun f => f.action == action && f.args == args) with
  | some pos =>
      let e := filters.getD pos (WinFilter.mk 0 0 none)
      if e.selevents.isSome != selevents.isSome then
        (filters, false, some PyErr.valueError)
      else
        match e.selevents, selevents with
        | some olds, some news =>
            (filters.set pos
              (WinFilter.mk e.action e.args (some (olds.union news))),
             add_conn_filter, none)
        | _, _ => (filters, add_conn_filter, none)
  | none =>
      (filters ++ [WinFilter.mk action args selevents], add_conn_filter,
       none)

/-- Window.remove_event_filter (lines 2174-2212): find the first entry
with the given action+args key; when none exists the call silently does
nothing — the method has no optional flag. When one exists, a wildcard
mismatch raises ValueError (lines 2196-2198); else a non-None selevents
is subtracted from the entry set (lines 2199-2201); a still non-empty
set is stored back (lines 2202-2203), otherwise the entry is dropped and,
when the list becomes empty, the connection-level filter is removed with
optional=True (lines 2204-2209) — reported by the Bool of the result. -/
def win_remove_event_filter (filters : List WinFilter) (action args : Nat)
    (selevents : Option (List Nat)) :
    List WinFilter × Bool × Option PyErr :=
  match filters.findIdx? (fun f => f.action == action && f.args == args) with
  | some pos =>
      let e := filters.getD pos (WinFilter.mk 0 0 none)
      if e.selevents.isSome != selevents.isSome then
        (filters, false, some PyErr.valueError)
      else
        let eventset :=
          match e.selevents, selevents with
          | some olds, some news =>
              some (olds.filter (fun c => !news.contains c))
          | _, _ => e.selevents
        match eventset with
        | some res =>
            if res.length ≠ 0 then
              (filters.set pos (WinFilter.mk e.action e.args (some res)),
               false, none)
            else
              let filters2 := filters.eraseIdx pos
              (filters2, filters2.isEmpty, none)
        | none =>
            let filters2 := filters.eraseIdx pos
            (filters2, filters2.isEmpty, none)
  | none => (filters, false, none)

/-- Claim C9: calling Window.add_event_filter again with an
already-registered action+args key and a non-None event-code set
succeeds exactly when the existing entry holds a non-None set, replacing
it with the union of the old and new sets; when the existing entry is the
wildcard None, ValueError is raised and the filter list is left
unchanged (and the connection-level filter is not touched in either
case). -/
theorem win_add_event_filter_merge (filters : List WinFilter)
    (action args : Nat) (news : List Nat) (pos : Nat) (e : WinFilter)
    (hpos : filters.findIdx? (fun f => f.action == action && f.args == args)
      = some pos)
    (he : filters[pos]? = some e) :
    (∀ olds, e.selevents = some olds →
      win_add_event_filter filters action args (some news) =
        (filters.set pos
          (WinFilter.mk e.action e.args (some (olds.union news))),
         false, none)) ∧
    (e.selevents = none →
      win_add_event_filter filters action args (some news) =
        (filters, false, some PyErr.valueError)) := by
  have hne : filters ≠ [] := ne_nil_of_findIdx?_eq_some hpos
  have hemp : filters.isEmpty = false := by
    cases hc : filters with
    | nil => exact absurd hc hne
    | cons a t => rfl
  have hgetD : filters.getD pos (WinFilter.mk 0 0 none) = e := by
    rw [List.getD_eq_getElem?_getD, he]
    rfl
  constructor
  · intro olds holds
    unfold win_add_event_filter
    dsimp only
    rw [hpos]
    dsimp only
    rw [hgetD, holds, hemp]
    rfl
  · intro holds
    unfold win_add_event_filter
    dsimp only
    rw [hpos]
    dsimp only
    rw [hgetD, holds]
    rfl

/-- Witness for claim C9: a list holding the key 1,0 with set 2 and the
key 3,0 with the wildcard; adding set 4 to the first merges, adding set 4
to the second raises ValueError with the list unchanged. -/
theorem win_add_event_filter_merge_witness :
    win_add_event_filter
        [WinFilter.mk 1 0 (some [2]), WinFilter.mk 3 0 none] 1 0
        (some [4]) =
      ([WinFilter.mk 1 0 (some [2]), WinFilter.mk 3 0 none].set 0
        (WinFilter.mk 1 0 (some ([2].union [4]))), false, none) ∧
    win_add_event_filter
        [WinFilter.mk 1 0 (some [2]), WinFilter.mk 3 0 none] 3 0
        (some [4]) =
      ([WinFilter.mk 1 0 (some [2]), WinFilter.mk 3 0 none], false,
       some PyErr.valueError) :=
  ⟨(win_add_event_filter_merge
      [WinFilter.mk 1 0 (some [2]), WinFilter.mk 3 0 none] 1 0 [4] 0
      (WinFilter.mk 1 0 (some [2])) rfl rfl).1 [2] rfl,
   (win_add_event_filter_merge
      [WinFilter.mk 1 0 (some [2]), WinFilter.mk 3 0 none] 3 0 [4] 1
      (WinFilter.mk 3 0 none) rfl rfl).2 rfl⟩

/-- Claim C10: Window.remove_event_filter with an action+args key that is
not registered returns silently — no error, the filter list and the
connection-level registration untouched, with no optional flag involved —
whereas Connection.remove_event_filter on an absent key raises KeyError
unless optional is true. -/
theorem win_remove_unknown_key_noop (filters : List WinFilter)
    (action args : Nat) (selevents : Option (List Nat)) (s : ConnState)
    (caction cargs : Nat)
    (hw : filters.findIdx? (fun f => f.action == action && f.args == args)
      = none)
    (hc : s.event_filters.findIdx? (fun f => f == (caction, cargs)) = none) :
    win_remove_event_filter filters action args selevents =
      (filters, false, none) ∧
    remove_event_filter s caction cargs false = (s, some PyErr.keyError) ∧
    remove_event_filter s caction cargs true = (s, none) := by
  refine ⟨?_, ?_, ?_⟩
  · unfold win_remove_event_filter
    rw [hw]
  · unfold remove_event_filter
    rw [hc]
    rfl
  · unfold remove_event_filter
    rw [hc]
    rfl

/-- Witness for claim C10: removing the unregistered key 9,9 from a
window list holding only the key 1,0, and from a connection holding only
the filter 1,0 — without and with the optional flag. -/
theorem win_remove_unknown_key_noop_witness :
    win_remove_event_filter [WinFilter.mk 1 0 none] 9 9 none =
      ([WinFilter.mk 1 0 none], false, none) ∧
    remove_event_filter (ConnState.mk [(1, 0)] [] [] (some 3) true none)
        9 9 false =
      (ConnState.mk [(1, 0)] [] [] (some 3) true none,
       some PyErr.keyError) ∧
    remove_event_filter (ConnState.mk [(1, 0)] [] [] (some 3) true none)
        9 9 true =
      (ConnState.mk [(1, 0)] [] [] (some 3) true none, none) :=
  win_remove_unknown_key_noop [WinFilter.mk 1 0 none] 9 9 none
    (ConnState.mk [(1, 0)] [] [] (some 3) true none) 9 9 rfl rfl
